import Mathlib

/-!
Shallow embedding of `p2p.go` from the go-p2p repository.

Calls into the external libraries (libp2p, kad-dht, pubsub, multiaddr,
go-cid, and the Go standard library's `crypto/sha1`, `math/rand` and
`strconv`) are modelled as oracle functions collected in an `Ext` record:
each oracle is an arbitrary but fixed function, reflecting that the
corresponding Go call is deterministic in the arguments the wrapper passes
to it.  Handles to externally owned objects (keys, pubsubs, subscriptions,
streams, peers, DHTs, CIDs) are modelled as `Nat`.  Fallible Go calls
returning `(T, error)` become `Except Err T`.  Methods that in Go mutate
the receiver through a pointer are embedded as functions returning the
updated `Host` paired with the Go return value; methods that perform no
write to the receiver return it unchanged.
-/

namespace P2p

abbrev Err := String

abbrev Bytes := List Nat

/-- Go type `HandleBroadcast func(data []byte) error` (p2p.go line 33). -/
def HandleBroadcast := Bytes → Except Err Unit

/-- Go type `HandleUnicast func(data []byte) error` (p2p.go line 36). -/
def HandleUnicast := Bytes → Except Err Unit

/-- Go struct `Config` (p2p.go lines 39-47).  `time.Duration` is `int64`
nanoseconds, modelled as `Int`.  The Go field `SecureIO` is spelt
`SecureIo` here. -/
structure Config where
  HostName : String
  Port : Int
  ExternalHostName : String
  ExternalPort : Int
  SecureIo : Bool
  Gossip : Bool
  ConnectTimeout : Int
deriving DecidableEq, Repr

/-- `DefaultConfig` (p2p.go lines 50-58); `time.Minute` is 60e9 ns. -/
def DefaultConfig : Config :=
  { HostName := "127.0.0.1"
    Port := 30001
    ExternalHostName := ""
    ExternalPort := 30001
    SecureIo := false
    Gossip := false
    ConnectTimeout := 60000000000 }

/-- Go type `Option func(cfg *Config) error` (p2p.go line 61), in
functional form. -/
def OptionFn := Config → Except Err Config

/-- `HostName` option (p2p.go lines 64-69). -/
def HostName (hostName : String) : OptionFn :=
  fun cfg => Except.ok { cfg with HostName := hostName }

/-- `Port` option (p2p.go lines 72-77). -/
def Port (port : Int) : OptionFn :=
  fun cfg => Except.ok { cfg with Port := port }

/-- `ExternalHostName` option (p2p.go lines 80-85). -/
def ExternalHostName (externalHostName : String) : OptionFn :=
  fun cfg => Except.ok { cfg with ExternalHostName := externalHostName }

/-- `ExternalPort` option (p2p.go lines 88-93). -/
def ExternalPort (externalPort : Int) : OptionFn :=
  fun cfg => Except.ok { cfg with ExternalPort := externalPort }

/-- The Go option `SecureIO` (p2p.go lines 96-101), spelt `SecureIo`. -/
def SecureIo : OptionFn :=
  fun cfg => Except.ok { cfg with SecureIo := true }

/-- `Gossip` option (p2p.go lines 104-109). -/
def Gossip : OptionFn :=
  fun cfg => Except.ok { cfg with Gossip := true }

/-- `ConnectTimeout` option (p2p.go lines 112-117).  NOTE: embedded exactly
as written in the source, whose body sets `cfg.Gossip = true` and never
writes `cfg.ConnectTimeout`; the parameter `timout` is unused there. -/
def ConnectTimeout (timout : Int) : OptionFn :=
  fun cfg => Except.ok { cfg with Gossip := true }

/-- A multiaddr, distilled to the component queries the wrapper performs on
it: `ValueForProtocol` for `P_IP4`, `P_TCP` and `P_IPFS`, each returning
`(string, error)`. -/
structure Maddr where
  ip4 : Except Err String
  tcp : Except Err String
  ipfs : Except Err String

/-- The libp2p host handle, distilled to the two observations the wrapper
makes of it: `ID().Pretty()` and `Addrs()`. -/
structure LibHost where
  prettyID : String
  addrs : List Maddr

/-- Which pubsub constructor of the external library `NewHost` picks
(p2p.go lines 192-195). -/
inductive PubSubCtor
  | NewFloodSub
  | NewGossipSub
deriving DecidableEq, Repr

/-- The options record assembled for `libp2p.New` (p2p.go lines 165-183):
listen address string, optional external multiaddr appended by the
`AddrsFactory`, identity key, TCP transport connect timeout, and whether
`libp2p.NoSecurity` was appended (the `!cfg.SecureIO` branch). -/
structure Libp2pOpts where
  listenAddr : String
  extAddr : Option Maddr
  identity : Nat
  connectTimeout : Int
  noSecurity : Bool

/-- Oracles for every external-library call the wrapper delegates to.
Each is a fixed (deterministic) function of the arguments the wrapper
passes, which is how the underlying libraries behave for a fixed world. -/
structure Ext where
  /-- `EnsureIPv4` (defined elsewhere in the repository). -/
  ensureIPv4 : String → Except Err String
  /-- `crypto/sha1.Sum`: a 20-byte digest of the input string's bytes. -/
  sha1 : String → Fin 20 → Fin 256
  /-- `crypto.GenerateKeyPairWithReader(crypto.Ed25519, 2048, rand.New(rand.NewSource(seed)))`
  as a function of the seed: the PRNG is freshly created from the seed, so
  the whole pipeline is a fixed function of the seed (p2p.go 423-424). -/
  genKeyPairWithReader : Int → Except Err (Nat × Nat)
  /-- `multiaddr.NewMultiaddr`. -/
  newMultiaddr : String → Except Err Maddr
  /-- `libp2p.New(ctx, opts...)`. -/
  libp2pNew : Libp2pOpts → Except Err LibHost
  /-- `dht.New(ctx, host)`. -/
  dhtNew : Except Err Nat
  /-- `cid.V1Builder{Codec: cid.Raw, MhType: multihash.SHA2_256}.Sum` on the
  bytes of the given string (p2p.go 196-197). -/
  v1bSum : String → Except Err Nat
  /-- `cid.Cid.String()`. -/
  cidString : Nat → String
  /-- `peerstore.InfoFromP2pAddr`. -/
  infoFromP2pAddr : Maddr → Except Err Nat
  /-- `h.host.Connect(ctx, target)`. -/
  hostConnect : Nat → Except Err Unit
  /-- `h.kad.Provide(ctx, key, true)` as a function of the key. -/
  provide : Nat → Except Err Unit
  /-- `h.kad.Bootstrap(ctx)`. -/
  bootstrap : Except Err Unit
  /-- `pubsub.NewFloodSub` / `pubsub.NewGossipSub` applied to `(ctx, host)`. -/
  newPubSubFn : PubSubCtor → Except Err Nat
  /-- `pub.Subscribe(topic)`. -/
  subscribe : Nat → String → Except Err Nat
  /-- `pub.Publish(topic, data)`. -/
  publish : Nat → String → Bytes → Except Err Unit
  /-- `peer.IDB58Decode`. -/
  idB58Decode : String → Except Err Nat
  /-- `h.host.Peerstore().Addrs(peerID)`. -/
  peerstoreAddrs : Nat → List Maddr
  /-- `h.host.NewStream(ctx, peerID, protocol.ID(topic))`. -/
  newStream : Nat → String → Except Err Nat
  /-- `stream.Write(data)`. -/
  streamWrite : Nat → Bytes → Except Err Nat
  /-- `stream.Close()`. -/
  streamClose : Nat → Except Err Unit
  /-- `h.kad.GetClosestPeers(ctx, key)`; the channel of peers is modelled
  as the list of peers received, in order. -/
  getClosestPeers : String → Except Err (List Nat)
  /-- `h.kad.FindLocal(peer).Addrs`. -/
  findLocal : Nat → List Maddr
  /-- `h.kad.Close()`. -/
  kadClose : Except Err Unit
  /-- `h.host.Close()`. -/
  hostClose : Except Err Unit
  /-- `addr.Encapsulate(hostAddr).String()` given the first listen address
  and the `/ipfs/<id>` string (p2p.go 368-372). -/
  encapsulate : Maddr → String → String

/-- `seedBytes := hash[12:]` (p2p.go line 420): bytes 12..19 of the SHA-1
digest (the digest is a 20-byte array value, so the slice is into a local
copy). -/
def seedBytes (hash : Fin 20 → Fin 256) (i : Fin 8) : Fin 256 :=
  hash ⟨12 + i.val, by omega⟩

/-- `seedBytes[0] = 0` (p2p.go line 421): the first of the sliced bytes is
zeroed. -/
def seedBytesZeroed (hash : Fin 20 → Fin 256) (i : Fin 8) : Fin 256 :=
  if i = 0 then 0 else seedBytes hash i

/-- `binary.BigEndian.Uint64` of 8 bytes (big-endian Horner form). -/
def beUint64 (b : Fin 8 → Fin 256) : Nat :=
  [b 0, b 1, b 2, b 3, b 4, b 5, b 6, b 7].foldl (fun acc x => acc * 256 + x.val) 0

/-- Go `int64(u)`: two's-complement reinterpretation of a `uint64`. -/
def toInt64 (n : Nat) : Int :=
  if n % 2 ^ 64 < 2 ^ 63 then ((n % 2 ^ 64 : Nat) : Int)
  else ((n % 2 ^ 64 : Nat) : Int) - 2 ^ 64

/-- `generateKeyPair` (p2p.go lines 418-425): hash the address, take bytes
12..19, zero the first, read big-endian, reinterpret as `int64`, and hand
the seed to the deterministic key-generation pipeline. -/
def generateKeyPair (E : Ext) (addr : String) : Except Err (Nat × Nat) :=
  E.genKeyPairWithReader (toInt64 (beUint64 (seedBytesZeroed (E.sha1 addr))))

/-- The seed in the words of the claim C2: bytes 12..19 of the SHA-1 hash,
with the first of those bytes zeroed (hence absent), read as a big-endian
64-bit integer. -/
def seedFromSpec (hash : Fin 20 → Fin 256) : Nat :=
  (hash ⟨13, by omega⟩).val * 256 ^ 6 + (hash ⟨14, by omega⟩).val * 256 ^ 5 +
  (hash ⟨15, by omega⟩).val * 256 ^ 4 + (hash ⟨16, by omega⟩).val * 256 ^ 3 +
  (hash ⟨17, by omega⟩).val * 256 ^ 2 + (hash ⟨18, by omega⟩).val * 256 +
  (hash ⟨19, by omega⟩).val

/-- `strconv.Atoi`: optional sign, then one or more decimal digits.
(The 64-bit range error of `strconv` is not modelled; the wrapper only
parses port numbers.) -/
def Atoi (s : String) : Except Err Int :=
  let p : Bool × List Char :=
    match s.data with
    | '-' :: rest => (true, rest)
    | '+' :: rest => (false, rest)
    | cs => (false, cs)
  if p.2 = [] then Except.error "invalid syntax"
  else if p.2.all (fun c => c.isDigit) then
    let n : Nat := p.2.foldl (fun acc c => acc * 10 + (c.toNat - 48)) 0
    Except.ok (if p.1 then -(n : Int) else (n : Int))
  else Except.error "invalid syntax"

/-- Go struct `Host` (p2p.go lines 120-131).  `host` is distilled to the
two observations the wrapper makes (`hostID` = `host.ID().Pretty()`,
`hostAddrs` = `host.Addrs()`); `topics` is a `map[string]interface{}`
whose values are always nil, so a list of keys; `pubs`/`subs` are maps to
external handles; `closed` is whether the `close` channel has been closed;
`handlers` records the stream handlers installed via `SetStreamHandler`
(protocol id and user callback). -/
structure Host where
  hostID : String
  hostAddrs : List Maddr
  cfg : Config
  topics : List String
  kad : Nat
  kadKey : Nat
  newPubSub : PubSubCtor
  pubs : List (String × Nat)
  subs : List (String × Nat)
  closed : Bool
  handlers : List (String × HandleUnicast)

/-- The option loop of `NewHost` (p2p.go lines 135-140): apply each option
in order, stopping at the first error. -/
def applyOptions : List OptionFn → Config → Except Err Config
  | [], cfg => Except.ok cfg
  | o :: rest, cfg =>
    match o cfg with
    | Except.error e => Except.error e
    | Except.ok cfg2 => applyOptions rest cfg2

/-- The external-host branch of `NewHost` (p2p.go lines 149-164): when
`cfg.ExternalHostName` is non-empty, re-resolve it, replace the private
key by one generated from `extIP:ExternalPort`, and build the external
multiaddr; otherwise keep the original key and no external multiaddr. -/
def extBranch (E : Ext) (cfg : Config) (sk : Nat) : Except Err (Nat × Option Maddr) :=
  if cfg.ExternalHostName ≠ "" then
    match E.ensureIPv4 cfg.ExternalHostName with
    | Except.error e => Except.error e
    | Except.ok extIP =>
      match generateKeyPair E (extIP ++ ":" ++ toString cfg.ExternalPort) with
      | Except.error e => Except.error e
      | Except.ok (sk2, _pk2) =>
        match E.newMultiaddr ("/ip4/" ++ extIP ++ "/tcp/" ++ toString cfg.ExternalPort) with
        | Except.error e => Except.error e
        | Except.ok ext => Except.ok (sk2, some ext)
  else Except.ok (sk, none)

/-- The port fix-up of `NewHost` (p2p.go lines 201-210): if `cfg.Port` is
0, read the TCP component of the first listen address and store its parsed
value; the `strconv.Atoi` error is ignored in the source, and on error the
Go `port` variable is 0.  Indexing `host.Addrs()[0]` on an empty slice
panics, modelled as an error. -/
def fixPort (cfg : Config) (addrs : List Maddr) : Except Err Config :=
  if cfg.Port == 0 then
    match addrs with
    | [] => Except.error "panic: index out of range"
    | addr :: _ =>
      match addr.tcp with
      | Except.error e => Except.error e
      | Except.ok portStr =>
        match Atoi portStr with
        | Except.ok port => Except.ok { cfg with Port := port }
        | Except.error _ => Except.ok { cfg with Port := 0 }
  else Except.ok cfg

/-- The body of `NewHost` after the option loop (p2p.go lines 141-229):
resolve the host name, generate the identity key from `ip:Port`, run the
external-host branch, assemble the libp2p options, create the host and the
DHT, pick the pubsub constructor from `cfg.Gossip`, compute the kad key as
the V1 CID over the pretty peer id, fix up a zero port, and build the
`Host` record with empty topic/pub/sub maps and an open close channel. -/
def newHostWithCfg (E : Ext) (cfg : Config) : Except Err Host :=
  match E.ensureIPv4 cfg.HostName with
  | Except.error e => Except.error e
  | Except.ok ip =>
    match generateKeyPair E (ip ++ ":" ++ toString cfg.Port) with
    | Except.error e => Except.error e
    | Except.ok (sk, _pk) =>
      match extBranch E cfg sk with
      | Except.error e => Except.error e
      | Except.ok (sk2, extMultiAddr) =>
        match E.libp2pNew
            { listenAddr := "/ip4/" ++ ip ++ "/tcp/" ++ toString cfg.Port
              extAddr := extMultiAddr
              identity := sk2
              connectTimeout := cfg.ConnectTimeout
              noSecurity := !cfg.SecureIo } with
        | Except.error e => Except.error e
        | Except.ok host =>
          match E.dhtNew with
          | Except.error e => Except.error e
          | Except.ok kad =>
            match E.v1bSum host.prettyID with
            | Except.error e => Except.error e
            | Except.ok cidv =>
              match fixPort cfg host.addrs with
              | Except.error e => Except.error e
              | Except.ok cfg2 =>
                Except.ok
                  { hostID := host.prettyID
                    hostAddrs := host.addrs
                    cfg := cfg2
                    topics := []
                    kad := kad
                    kadKey := cidv
                    newPubSub :=
                      if cfg.Gossip then PubSubCtor.NewGossipSub
                      else PubSubCtor.NewFloodSub
                    pubs := []
                    subs := []
                    closed := false
                    handlers := [] }

/-- `NewHost` (p2p.go lines 134-230): option loop, then the body above. -/
def NewHost (E : Ext) (options : List OptionFn) : Except Err Host :=
  match applyOptions options DefaultConfig with
  | Except.error e => Except.error e
  | Except.ok cfg => newHostWithCfg E cfg

/-- `Connect` (p2p.go lines 233-249): parse the address into a multiaddr,
extract the peer info, dial; no field of the receiver is written. -/
def Connect (E : Ext) (h : Host) (addr : String) : Host × Except Err Unit :=
  (h,
    match E.newMultiaddr addr with
    | Except.error e => Except.error e
    | Except.ok ma =>
      match E.infoFromP2pAddr ma with
      | Except.error e => Except.error e
      | Except.ok target => E.hostConnect target)

/-- `JoinOverlay` (p2p.go lines 252-257): if `Provide` succeeds return
nil, otherwise fall back to `Bootstrap` and return its result (the
`Provide` error is discarded). -/
def JoinOverlay (E : Ext) (h : Host) : Host × Except Err Unit :=
  (h,
    match E.provide h.kadKey with
    | Except.ok _ => Except.ok ()
    | Except.error _ => E.bootstrap)

/-- `AddUnicastPubSub` (p2p.go lines 260-281): if the topic is already in
`topics`, return nil immediately; else install a stream handler for the
topic and record the topic. -/
def AddUnicastPubSub (h : Host) (topic : String) (callback : HandleUnicast) :
    Host × Except Err Unit :=
  if h.topics.contains topic then (h, Except.ok ())
  else
    ({ h with
        handlers := h.handlers ++ [(topic, callback)]
        topics := h.topics ++ [topic] },
      Except.ok ())

/-- `AddBroadcastPubSub` (p2p.go lines 285-317): if the topic is already in
`pubs`, return nil immediately; else create a pubsub with the selected
constructor, subscribe to the topic, record both, and spawn the delivery
task (the task itself is modelled by `bcastRun` below). -/
def AddBroadcastPubSub (E : Ext) (h : Host) (topic : String)
    (callback : HandleBroadcast) : Host × Except Err Unit :=
  match h.pubs.lookup topic with
  | some _ => (h, Except.ok ())
  | none =>
    match E.newPubSubFn h.newPubSub with
    | Except.error e => (h, Except.error e)
    | Except.ok pub =>
      match E.subscribe pub topic with
      | Except.error e => (h, Except.error e)
      | Except.ok sub =>
        ({ h with
            pubs := h.pubs ++ [(topic, pub)]
            subs := h.subs ++ [(topic, sub)] },
          Except.ok ())

/-- The per-topic background task spawned by `AddBroadcastPubSub` (p2p.go
lines 299-315).  Iteration `k` of the loop: the `select` returns when the
`close` channel is closed (`closed k`; nothing is ever sent on it, so the
receive is ready exactly when it is closed), otherwise the `default`
branch calls `sub.Next` (`next k`), skipping errors and passing message
payloads to the callback.  The result is `some delivered` when the loop
returns within `fuel` iterations, where `delivered` lists the payloads
handed to the user callback from iteration `k` on. -/
def bcastRun (closed : Nat → Bool) (next : Nat → Except Err Bytes) :
    Nat → Nat → Option (List Bytes)
  | 0, _ => none
  | fuel + 1, k =>
    if closed k then some []
    else
      match next k with
      | Except.error _ => bcastRun closed next fuel (k + 1)
      | Except.ok data => (bcastRun closed next fuel (k + 1)).map (fun l => data :: l)

/-- `Broadcast` (p2p.go lines 320-326): look the topic up in `pubs`; if
absent return nil, else return the `Publish` result. -/
def Broadcast (E : Ext) (h : Host) (topic : String) (data : Bytes) :
    Host × Except Err Unit :=
  (h,
    match h.pubs.lookup topic with
    | none => Except.ok ()
    | some pub => E.publish pub topic data)

/-- `Unicast` (p2p.go lines 329-354): parse the address, extract and decode
the `/ipfs` peer id, seed the peerstore if needed (external effect), open a
stream and write.  The Go function has a named result `err` and
`defer func() \x7b err = stream.Close() \x7d()`, so once the stream is open
the deferred close result overwrites the write result. -/
def Unicast (E : Ext) (h : Host) (addr : String) (topic : String) (data : Bytes) :
    Host × Except Err Unit :=
  (h,
    match E.newMultiaddr addr with
    | Except.error e => Except.error e
    | Except.ok ma =>
      match ma.ipfs with
      | Except.error e => Except.error e
      | Except.ok peerIDStr =>
        match E.idB58Decode peerIDStr with
        | Except.error e => Except.error e
        | Except.ok peerID =>
          match E.newStream peerID topic with
          | Except.error e => Except.error e
          | Except.ok stream =>
            let _writeResult := E.streamWrite stream data
            E.streamClose stream)

/-- `Identity` (p2p.go lines 357-359). -/
def Identity (h : Host) : Host × String := (h, h.hostID)

/-- `IdentityHash` (p2p.go line 362): `h.kadKey.String()`. -/
def IdentityHash (E : Ext) (h : Host) : Host × String := (h, E.cidString h.kadKey)

/-- `Address` (p2p.go line 365). -/
def Address (h : Host) : Host × String :=
  (h, h.cfg.HostName ++ ":" ++ toString h.cfg.Port)

/-- `MultiAddress` (p2p.go lines 368-372); indexing an empty `Addrs()`
slice panics, modelled as an error. -/
def MultiAddress (E : Ext) (h : Host) : Host × Except Err String :=
  (h,
    match h.hostAddrs with
    | [] => Except.error "panic: index out of range"
    | addr :: _ => Except.ok (E.encapsulate addr ("/ipfs/" ++ h.hostID)))

/-- The body of the inner loop of `Neighbors` for one multiaddr (p2p.go
lines 382-396): take the IPv4 component (skip on error or empty), the TCP
component (skip on error), parse it (skip on error), and produce
`ip:port`. -/
def entryOf (ma : Maddr) : Option String :=
  match ma.ip4 with
  | Except.error _ => none
  | Except.ok ip =>
    if ip = "" then none
    else
      match ma.tcp with
      | Except.error _ => none
      | Except.ok portStr =>
        match Atoi portStr with
        | Except.error _ => none
        | Except.ok port => some (ip ++ ":" ++ toString port)

/-- The inner loop of `Neighbors` over one peer's addresses (p2p.go lines
382-397): `continue` on each failed check, `break` after the first
appended entry. -/
def firstIpPort : List Maddr → Option String
  | [] => none
  | ma :: rest =>
    match entryOf ma with
    | some s => some s
    | none => firstIpPort rest

/-- `Neighbors` (p2p.go lines 375-400): get the closest peers to the kad
key's string, and for each peer append at most one `ip:port` entry from
its locally known addresses. -/
def Neighbors (E : Ext) (h : Host) : Host × Except Err (List String) :=
  (h,
    match E.getClosestPeers (E.cidString h.kadKey) with
    | Except.error e => Except.error e
    | Except.ok peers =>
      Except.ok (peers.filterMap (fun p => firstIpPort (E.findLocal p))))

/-- `Close` (p2p.go lines 403-415): close the `close` channel, cancel each
subscription (external effect on the subscription handles), then close the
DHT and the host, passing through the first error. -/
def Close (E : Ext) (h : Host) : Host × Except Err Unit :=
  ({ h with closed := true },
    match E.kadClose with
    | Except.error e => Except.error e
    | Except.ok _ => E.hostClose)

/-- Specification of a successful `Neighbors` result `ns`: it comes from
the closest-peers query keyed by the kad key's string form; each peer
contributes at most one entry (hence `ns` is no longer than the peer
list); every entry is `ip:port` built from the IPv4 component and the
parsed TCP component of one locally known address of one of those peers;
per peer the entry comes from the first address passing all three checks
(`findSome?` semantics); and a peer none of whose addresses passes all
three checks contributes no entry. -/
def NeighborsSpec (E : Ext) (h : Host) (ns : List String) : Prop :=
  ∃ peers,
    E.getClosestPeers (E.cidString h.kadKey) = Except.ok peers ∧
    ns = peers.filterMap (fun p => firstIpPort (E.findLocal p)) ∧
    ns.length ≤ peers.length ∧
    (∀ s ∈ ns, ∃ p ∈ peers, ∃ ma ∈ E.findLocal p, ∃ ip portStr port,
        ma.ip4 = Except.ok ip ∧ ip ≠ "" ∧ ma.tcp = Except.ok portStr ∧
        Atoi portStr = Except.ok port ∧ s = ip ++ ":" ++ toString port) ∧
    (∀ p, firstIpPort (E.findLocal p) = (E.findLocal p).findSome? entryOf) ∧
    (∀ p, (∀ ma ∈ E.findLocal p, entryOf ma = none) →
        firstIpPort (E.findLocal p) = none)

/-- A concrete multiaddr used to instantiate theorems with hypotheses. -/
def maddrTest : Maddr :=
  { ip4 := Except.ok "1.2.3.4", tcp := Except.ok "8080", ipfs := Except.ok "QmX" }

/-- A concrete libp2p host handle for instantiations. -/
def libHostTest : LibHost := { prettyID := "QmPeer", addrs := [maddrTest] }

/-- A concrete external world for instantiations.  Its `provide` oracle
always fails, which exercises the `JoinOverlay` fallback path. -/
def extTest : Ext :=
  { ensureIPv4 := fun s => Except.ok s
    sha1 := fun _ _ => 0
    genKeyPairWithReader := fun _ => Except.ok (0, 0)
    newMultiaddr := fun _ => Except.ok maddrTest
    libp2pNew := fun _ => Except.ok libHostTest
    dhtNew := Except.ok 0
    v1bSum := fun _ => Except.ok 42
    cidString := fun n => toString n
    infoFromP2pAddr := fun _ => Except.ok 0
    hostConnect := fun _ => Except.ok ()
    provide := fun _ => Except.error "provide failed"
    bootstrap := Except.ok ()
    newPubSubFn := fun _ => Except.ok 5
    subscribe := fun _ _ => Except.ok 6
    publish := fun _ _ _ => Except.ok ()
    idB58Decode := fun _ => Except.ok 0
    peerstoreAddrs := fun _ => []
    newStream := fun _ _ => Except.ok 0
    streamWrite := fun _ _ => Except.ok 0
    streamClose := fun _ => Except.ok ()
    getClosestPeers := fun _ => Except.ok [1]
    findLocal := fun _ => [maddrTest]
    kadClose := Except.ok ()
    hostClose := Except.ok ()
    encapsulate := fun _ s => s }

/-- A concrete host state with the topic `"t"` registered both as a
unicast topic and as a broadcast topic. -/
def hostTest : Host :=
  { hostID := "QmPeer"
    hostAddrs := [maddrTest]
    cfg := DefaultConfig
    topics := ["t"]
    kad := 0
    kadKey := 42
    newPubSub := PubSubCtor.NewFloodSub
    pubs := [("t", 5)]
    subs := [("t", 6)]
    closed := false
    handlers := [] }

/-- The host `NewHost extTest []` constructs. -/
def hostNew : Host :=
  { hostID := "QmPeer"
    hostAddrs := [maddrTest]
    cfg := DefaultConfig
    topics := []
    kad := 0
    kadKey := 42
    newPubSub := PubSubCtor.NewFloodSub
    pubs := []
    subs := []
    closed := false
    handlers := [] }

/-- A concrete unicast callback. -/
def cbUTest : HandleUnicast := fun _ => Except.ok ()

/-- A concrete broadcast callback. -/
def cbBTest : HandleBroadcast := fun _ => Except.ok ()

/-! ### Helper lemmas -/

/-- The six option constructors other than `ConnectTimeout` each set
exactly the field they are named after (supporting fact for C1; the
`ConnectTimeout` constructor is settled by the claim theorem). -/
theorem options_set_named_field (cfg : Config) (s : String) (n : Int) :
    HostName s cfg = Except.ok { cfg with HostName := s } ∧
    Port n cfg = Except.ok { cfg with Port := n } ∧
    ExternalHostName s cfg = Except.ok { cfg with ExternalHostName := s } ∧
    ExternalPort n cfg = Except.ok { cfg with ExternalPort := n } ∧
    SecureIo cfg = Except.ok { cfg with SecureIo := true } ∧
    Gossip cfg = Except.ok { cfg with Gossip := true } :=
  ⟨rfl, rfl, rfl, rfl, rfl, rfl⟩

/-- Unfolding the Horner form of the big-endian read of the zeroed seed
bytes yields the polynomial the spec describes. -/
theorem beUint64_seedBytesZeroed (hash : Fin 20 → Fin 256) :
    beUint64 (seedBytesZeroed hash) = seedFromSpec hash := by
  show ((((((((0 : Nat) * 256 + (hash ⟨13, by omega⟩).val) * 256 +
      (hash ⟨14, by omega⟩).val) * 256 + (hash ⟨15, by omega⟩).val) * 256 +
      (hash ⟨16, by omega⟩).val) * 256 + (hash ⟨17, by omega⟩).val) * 256 +
      (hash ⟨18, by omega⟩).val) * 256 + (hash ⟨19, by omega⟩).val) =
      seedFromSpec hash
  unfold seedFromSpec
  ring

/-- The spec seed has its top byte zeroed, so it is below `2 ^ 63`. -/
theorem seedFromSpec_lt (hash : Fin 20 → Fin 256) : seedFromSpec hash < 2 ^ 63 := by
  have h13 := (hash ⟨13, by omega⟩).isLt
  have h14 := (hash ⟨14, by omega⟩).isLt
  have h15 := (hash ⟨15, by omega⟩).isLt
  have h16 := (hash ⟨16, by omega⟩).isLt
  have h17 := (hash ⟨17, by omega⟩).isLt
  have h18 := (hash ⟨18, by omega⟩).isLt
  have h19 := (hash ⟨19, by omega⟩).isLt
  unfold seedFromSpec
  have e6 : (256 : Nat) ^ 6 = 281474976710656 := by norm_num
  have e5 : (256 : Nat) ^ 5 = 1099511627776 := by norm_num
  have e4 : (256 : Nat) ^ 4 = 4294967296 := by norm_num
  have e3 : (256 : Nat) ^ 3 = 16777216 := by norm_num
  have e2 : (256 : Nat) ^ 2 = 65536 := by norm_num
  rw [e6, e5, e4, e3, e2]
  omega

/-- A `uint64` below `2 ^ 63` reinterprets to the same (non-negative)
`int64`. -/
theorem toInt64_eq_of_lt {n : Nat} (hn : n < 2 ^ 63) : toInt64 n = (n : Int) := by
  unfold toInt64
  have h1 : n % 2 ^ 64 = n := Nat.mod_eq_of_lt (by omega)
  rw [h1, if_pos hn]

/-- `fixPort` never touches the `Gossip` field. -/
theorem fixPort_gossip {cfg : Config} {addrs : List Maddr} {cfg2 : Config}
    (hfix : fixPort cfg addrs = Except.ok cfg2) : cfg2.Gossip = cfg.Gossip := by
  unfold fixPort at hfix
  repeat' split at hfix
  all_goals try exact Except.noConfusion hfix
  all_goals cases hfix
  all_goals rfl

/-- Inversion of the body of `NewHost`: a successfully constructed host
stores the pubsub constructor selected by `cfg.Gossip`, a kad key that is
the V1 CID over its pretty peer id, a configuration whose `Gossip` field
is the input one, and empty topic/pub/sub maps with the close channel
open. -/
theorem newHostWithCfg_inv (E : Ext) (cfg : Config) (h : Host)
    (hok : newHostWithCfg E cfg = Except.ok h) :
    h.newPubSub =
      (if cfg.Gossip then PubSubCtor.NewGossipSub else PubSubCtor.NewFloodSub) ∧
    E.v1bSum h.hostID = Except.ok h.kadKey ∧
    h.cfg.Gossip = cfg.Gossip ∧
    h.topics = [] ∧ h.pubs = [] ∧ h.subs = [] ∧ h.closed = false := by
  unfold newHostWithCfg at hok
  repeat' split at hok
  all_goals try exact Except.noConfusion hok
  all_goals cases hok
  all_goals refine ⟨?_, ?_, ?_, rfl, rfl, rfl, rfl⟩
  all_goals first
    | exact fixPort_gossip (by assumption)
    | simp_all

/-- An address accepted by the inner `Neighbors` loop decomposes into an
IPv4 component, a non-empty ip, a TCP component that parses, and the
produced entry is `ip:port`. -/
theorem entryOf_eq_some {ma : Maddr} {s : String} (he : entryOf ma = some s) :
    ∃ ip portStr port, ma.ip4 = Except.ok ip ∧ ip ≠ "" ∧
      ma.tcp = Except.ok portStr ∧ Atoi portStr = Except.ok port ∧
      s = ip ++ ":" ++ toString port := by
  unfold entryOf at he
  cases hip : ma.ip4 with
  | error e => simp only [hip] at he; exact Option.noConfusion he
  | ok ip =>
    simp only [hip] at he
    by_cases hemp : ip = ""
    · simp only [if_pos hemp] at he; exact Option.noConfusion he
    · simp only [if_neg hemp] at he
      cases htcp : ma.tcp with
      | error e => simp only [htcp] at he; exact Option.noConfusion he
      | ok portStr =>
        simp only [htcp] at he
        cases hat : Atoi portStr with
        | error e => simp only [hat] at he; exact Option.noConfusion he
        | ok port =>
          simp only [hat, Option.some.injEq] at he
          exact ⟨ip, portStr, port, rfl, hemp, rfl, hat, he.symm⟩

/-- The inner loop of `Neighbors` is `findSome?` of the per-address
check: it returns the entry of the first qualifying address. -/
theorem firstIpPort_eq_findSome (l : List Maddr) :
    firstIpPort l = l.findSome? entryOf := by
  induction l with
  | nil => rfl
  | cons ma rest ih =>
    rw [List.findSome?_cons]
    unfold firstIpPort
    cases entryOf ma <;> simp [ih]

/-- A produced entry comes from some address of the list. -/
theorem firstIpPort_mem {l : List Maddr} {s : String}
    (hf : firstIpPort l = some s) : ∃ ma ∈ l, entryOf ma = some s := by
  induction l with
  | nil => exact Option.noConfusion hf
  | cons ma rest ih =>
    unfold firstIpPort at hf
    cases he : entryOf ma with
    | some t =>
      simp only [he, Option.some.injEq] at hf
      exact ⟨ma, List.mem_cons_self ma rest, by rw [he, hf]⟩
    | none =>
      simp only [he] at hf
      obtain ⟨ma2, hmem, he2⟩ := ih hf
      exact ⟨ma2, List.mem_cons_of_mem ma hmem, he2⟩

/-- A peer none of whose addresses qualifies contributes no entry. -/
theorem firstIpPort_none {l : List Maddr}
    (hall : ∀ ma ∈ l, entryOf ma = none) : firstIpPort l = none := by
  induction l with
  | nil => rfl
  | cons ma rest ih =>
    unfold firstIpPort
    rw [hall ma (List.mem_cons_self ma rest)]
    exact ih (fun ma2 hm => hall ma2 (List.mem_cons_of_mem ma hm))

/-! ### Claim theorems -/

/-- C1: the claim says every option constructor sets exactly the field it
is named after; the `ConnectTimeout` constructor violates this in the
code.  Evaluated at `ConnectTimeout 5` on `DefaultConfig`, the code yields
the configuration with `Gossip` set to true: the connect-timeout field is
left at its default (60e9, not 5) and the `Gossip` field is changed, so
the result differs from the one the claim (and the function's own doc
comment, "the option to override the connect timeout") prescribes. -/
theorem connectTimeout_sets_gossip_instead :
    ConnectTimeout 5 DefaultConfig =
      Except.ok { DefaultConfig with Gossip := true } ∧
    ({ DefaultConfig with Gossip := true } : Config).ConnectTimeout = 60000000000 ∧
    ({ DefaultConfig with Gossip := true } : Config) ≠
      { DefaultConfig with ConnectTimeout := 5 } := by
  refine ⟨rfl, rfl, ?_⟩
  decide

/-- C2: `generateKeyPair` is deterministic — two calls on equal address
strings return the same key pair — and the key generator is driven
exactly by the seed the spec describes: bytes 12..19 of the SHA-1 hash of
the address, first byte zeroed, read as a big-endian 64-bit integer
(non-negative, so the `int64` reinterpretation is the same number). -/
theorem generateKeyPair_deterministic (E : Ext) (a₁ a₂ : String)
    (hEq : a₁ = a₂) :
    generateKeyPair E a₁ = generateKeyPair E a₂ ∧
    generateKeyPair E a₁ =
      E.genKeyPairWithReader ((seedFromSpec (E.sha1 a₁) : Nat) : Int) ∧
    toInt64 (beUint64 (seedBytesZeroed (E.sha1 a₁))) =
      ((seedFromSpec (E.sha1 a₁) : Nat) : Int) := by
  subst hEq
  have ht : toInt64 (beUint64 (seedBytesZeroed (E.sha1 a₁))) =
      ((seedFromSpec (E.sha1 a₁) : Nat) : Int) := by
    rw [beUint64_seedBytesZeroed]
    exact toInt64_eq_of_lt (seedFromSpec_lt (E.sha1 a₁))
  refine ⟨rfl, ?_, ht⟩
  unfold generateKeyPair
  rw [ht]

/-- C2 witness: the theorem instantiated at the concrete world `extTest`
and the address `"127.0.0.1:30001"`. -/
theorem generateKeyPair_deterministic_witness :
    generateKeyPair extTest "127.0.0.1:30001" =
      generateKeyPair extTest "127.0.0.1:30001" ∧
    generateKeyPair extTest "127.0.0.1:30001" =
      extTest.genKeyPairWithReader
        ((seedFromSpec (extTest.sha1 "127.0.0.1:30001") : Nat) : Int) ∧
    toInt64 (beUint64 (seedBytesZeroed (extTest.sha1 "127.0.0.1:30001"))) =
      ((seedFromSpec (extTest.sha1 "127.0.0.1:30001") : Nat) : Int) :=
  generateKeyPair_deterministic extTest "127.0.0.1:30001" "127.0.0.1:30001" rfl

/-- C3: for every host successfully constructed by `NewHost`, the stored
kad key is the V1 (raw codec, SHA2-256) CID over the bytes of the host's
pretty-printed peer id — the string `Identity` returns — and
`IdentityHash` returns exactly the string form of that CID. -/
theorem kadKey_is_cid_of_identity (E : Ext) (options : List OptionFn)
    (h : Host) (hok : NewHost E options = Except.ok h) :
    E.v1bSum (Identity h).2 = Except.ok h.kadKey ∧
    (IdentityHash E h).2 = E.cidString h.kadKey := by
  unfold NewHost at hok
  cases happ : applyOptions options DefaultConfig with
  | error e => simp only [happ] at hok; exact Except.noConfusion hok
  | ok cfg =>
    simp only [happ] at hok
    exact ⟨(newHostWithCfg_inv E cfg h hok).2.1, rfl⟩

/-- C3 witness: the theorem instantiated at the concrete world `extTest`
with no options, which constructs `hostNew`. -/
theorem kadKey_is_cid_of_identity_witness :
    extTest.v1bSum (Identity hostNew).2 = Except.ok hostNew.kadKey ∧
    (IdentityHash extTest hostNew).2 = extTest.cidString hostNew.kadKey :=
  kadKey_is_cid_of_identity extTest [] hostNew rfl

/-- C4 counterexample: with the concrete world `extTest`, whose `Provide`
oracle fails with the error "provide failed" and whose `Bootstrap` oracle
succeeds, `JoinOverlay` returns nil rather than the provide call's error:
the delegated call failed, but the operation did not return that call's
error (it fell back to the bootstrap call instead), refuting the claim as
stated. -/
theorem joinOverlay_swallows_provide_error :
    extTest.provide hostTest.kadKey = Except.error "provide failed" ∧
    (JoinOverlay extTest hostTest).2 = Except.ok () :=
  ⟨rfl, rfl⟩

/-- C4 amended: `Broadcast` on a registered topic passes the publish
call's result (hence its error) through unchanged, while `JoinOverlay`,
when the provide call fails, discards that error, attempts the bootstrap
call, and returns the bootstrap call's result. -/
theorem error_passthrough_amended (E : Ext) (h : Host) (t : String)
    (d : Bytes) (pub : Nat) (e : Err)
    (hfail : E.provide h.kadKey = Except.error e)
    (hreg : h.pubs.lookup t = some pub) :
    JoinOverlay E h = (h, E.bootstrap) ∧
    Broadcast E h t d = (h, E.publish pub t d) := by
  constructor
  · unfold JoinOverlay
    rw [hfail]
  · unfold Broadcast
    rw [hreg]

/-- C4 witness: the amended theorem instantiated at `extTest` (whose
provide oracle fails) and `hostTest` (whose topic `"t"` is registered). -/
theorem error_passthrough_amended_witness :
    JoinOverlay extTest hostTest = (hostTest, extTest.bootstrap) ∧
    Broadcast extTest hostTest "t" [7] =
      (hostTest, extTest.publish 5 "t" [7]) :=
  error_passthrough_amended extTest hostTest "t" [7] 5 "provide failed" rfl rfl

/-- C5: the configuration stored in a host is set once at construction:
every public operation — `Connect`, `JoinOverlay`, `AddUnicastPubSub`,
`AddBroadcastPubSub`, `Broadcast`, `Unicast`, `Identity`, `IdentityHash`,
`Address`, `MultiAddress`, `Neighbors` and `Close` — leaves the `cfg`
field of the host unchanged. -/
theorem cfg_set_once (E : Ext) (h : Host) (addr topic : String) (d : Bytes)
    (cbU : HandleUnicast) (cbB : HandleBroadcast) :
    (Connect E h addr).1.cfg = h.cfg ∧
    (JoinOverlay E h).1.cfg = h.cfg ∧
    (AddUnicastPubSub h topic cbU).1.cfg = h.cfg ∧
    (AddBroadcastPubSub E h topic cbB).1.cfg = h.cfg ∧
    (Broadcast E h topic d).1.cfg = h.cfg ∧
    (Unicast E h addr topic d).1.cfg = h.cfg ∧
    (Identity h).1.cfg = h.cfg ∧
    (IdentityHash E h).1.cfg = h.cfg ∧
    (Address h).1.cfg = h.cfg ∧
    (MultiAddress E h).1.cfg = h.cfg ∧
    (Neighbors E h).1.cfg = h.cfg ∧
    (Close E h).1.cfg = h.cfg := by
  refine ⟨rfl, rfl, ?_, ?_, rfl, rfl, rfl, rfl, rfl, rfl, rfl, rfl⟩
  · unfold AddUnicastPubSub
    split <;> rfl
  · unfold AddBroadcastPubSub
    repeat' split
    all_goals rfl

/-- C6: `NewHost` stores the gossip pubsub constructor as the host's
pubsub factory exactly when the configuration's `Gossip` flag is true and
the flood constructor otherwise, and the `Gossip` option sets that flag
to true. -/
theorem gossip_selects_pubsub_ctor (E : Ext) (options : List OptionFn)
    (h : Host) (hok : NewHost E options = Except.ok h) :
    (h.newPubSub = PubSubCtor.NewGossipSub ↔ h.cfg.Gossip = true) ∧
    (h.cfg.Gossip = false → h.newPubSub = PubSubCtor.NewFloodSub) ∧
    (∀ cfg, Gossip cfg = Except.ok { cfg with Gossip := true }) := by
  unfold NewHost at hok
  cases happ : applyOptions options DefaultConfig with
  | error e => simp only [happ] at hok; exact Except.noConfusion hok
  | ok cfg =>
    simp only [happ] at hok
    obtain ⟨hsel, -, hg, -⟩ := newHostWithCfg_inv E cfg h hok
    rw [← hg] at hsel
    refine ⟨?_, ?_, fun cfg2 => rfl⟩
    · rw [hsel]
      cases hcg : h.cfg.Gossip <;> simp
    · intro hfalse
      rw [hsel, hfalse]
      simp

/-- C6 witness: the theorem instantiated at the concrete world `extTest`
with no options: `DefaultConfig.Gossip` is false and the constructed host
stores the flood constructor. -/
theorem gossip_selects_pubsub_ctor_witness :
    (hostNew.newPubSub = PubSubCtor.NewGossipSub ↔ hostNew.cfg.Gossip = true) ∧
    (hostNew.cfg.Gossip = false → hostNew.newPubSub = PubSubCtor.NewFloodSub) ∧
    (∀ cfg, Gossip cfg = Except.ok { cfg with Gossip := true }) :=
  gossip_selects_pubsub_ctor extTest [] hostNew rfl

/-- C7: `Close` marks the shared close channel closed, and a per-topic
broadcast delivery task whose iteration observes the closed channel
returns at its next `select` and invokes the user callback on no further
payload (the run delivers the empty list). -/
theorem close_terminates_delivery (E : Ext) (h : Host) (closed : Nat → Bool)
    (next : Nat → Except Err Bytes) (k fuel : Nat)
    (hclosed : closed k = true) (hfuel : 1 ≤ fuel) :
    (Close E h).1.closed = true ∧ bcastRun closed next fuel k = some [] := by
  refine ⟨rfl, ?_⟩
  obtain ⟨n, rfl⟩ : ∃ n, fuel = n + 1 := ⟨fuel - 1, by omega⟩
  unfold bcastRun
  rw [if_pos hclosed]

/-- C7 witness: the theorem instantiated after `Close extTest hostTest`,
with the close flag constantly true and the cancelled subscription's
`Next` always failing. -/
theorem close_terminates_delivery_witness :
    (Close extTest hostTest).1.closed = true ∧
    bcastRun (fun _ => true) (fun _ => Except.error "subscription cancelled")
      1 0 = some [] :=
  close_terminates_delivery extTest hostTest (fun _ => true)
    (fun _ => Except.error "subscription cancelled") 0 1 rfl (by omega)

/-- C8: topic registration is idempotent: when the topic is already in
the `topics` map, `AddUnicastPubSub` returns nil and the entire host
state is unchanged, and when it is already in the `pubs` map,
`AddBroadcastPubSub` returns nil and the entire host state is unchanged,
whatever callbacks are passed. -/
theorem topic_registration_idempotent (E : Ext) (h : Host) (t : String)
    (cbU : HandleUnicast) (cbB : HandleBroadcast)
    (hU : h.topics.contains t = true)
    (hB : (h.pubs.lookup t).isSome = true) :
    AddUnicastPubSub h t cbU = (h, Except.ok ()) ∧
    AddBroadcastPubSub E h t cbB = (h, Except.ok ()) := by
  constructor
  · unfold AddUnicastPubSub
    rw [if_pos hU]
  · unfold AddBroadcastPubSub
    cases hl : h.pubs.lookup t with
    | none => rw [hl] at hB; exact Bool.noConfusion hB
    | some pub => rfl

/-- C8 witness: the theorem instantiated at `hostTest`, where the topic
`"t"` is registered in both maps. -/
theorem topic_registration_idempotent_witness :
    AddUnicastPubSub hostTest "t" cbUTest = (hostTest, Except.ok ()) ∧
    AddBroadcastPubSub extTest hostTest "t" cbBTest = (hostTest, Except.ok ()) :=
  topic_registration_idempotent extTest hostTest "t" cbUTest cbBTest rfl rfl

/-- C9: broadcasting on a topic that was never registered returns nil,
performs no publish call (the result does not depend on the publish
oracle) and leaves the host state unchanged. -/
theorem broadcast_unregistered_noop (E : Ext) (h : Host) (t : String)
    (d : Bytes) (habs : h.pubs.lookup t = none) :
    Broadcast E h t d = (h, Except.ok ()) := by
  unfold Broadcast
  rw [habs]

/-- C9 witness: the theorem instantiated at `hostTest` and the topic
`"u"`, which is not registered. -/
theorem broadcast_unregistered_noop_witness :
    Broadcast extTest hostTest "u" [1, 2] = (hostTest, Except.ok ()) :=
  broadcast_unregistered_noop extTest hostTest "u" [1, 2] rfl

/-- C10: every string in a successful `Neighbors` result has the form
`ip:port` from the IPv4 component and the parsed TCP component of a
single locally known address of one of the closest peers; each peer
contributes at most one entry, taken from the first of its addresses
passing all checks, and peers with no such address contribute none. -/
theorem neighbors_entries_shape (E : Ext) (h : Host) (ns : List String)
    (hok : (Neighbors E h).2 = Except.ok ns) : NeighborsSpec E h ns := by
  unfold Neighbors at hok
  simp only at hok
  cases hg : E.getClosestPeers (E.cidString h.kadKey) with
  | error e => simp only [hg] at hok; exact Except.noConfusion hok
  | ok peers =>
    simp only [hg, Except.ok.injEq] at hok
    refine ⟨peers, hg, hok.symm, ?_, ?_, fun p => firstIpPort_eq_findSome _,
      fun p hall => firstIpPort_none hall⟩
    · rw [← hok]
      exact List.length_filterMap_le _ _
    · intro s hs
      rw [← hok] at hs
      rw [List.mem_filterMap] at hs
      obtain ⟨p, hp, hfp⟩ := hs
      obtain ⟨ma, hma, he⟩ := firstIpPort_mem hfp
      obtain ⟨ip, portStr, port, h1, h2, h3, h4, h5⟩ := entryOf_eq_some he
      exact ⟨p, hp, ma, hma, ip, portStr, port, h1, h2, h3, h4, h5⟩

/-- C10 witness: the theorem instantiated at the concrete world `extTest`
and `hostTest`: the single closest peer has one address with IPv4
component `1.2.3.4` and TCP component `8080`, yielding the single entry
`1.2.3.4:8080`. -/
theorem neighbors_entries_shape_witness :
    NeighborsSpec extTest hostTest ["1.2.3.4:8080"] :=
  neighbors_entries_shape extTest hostTest ["1.2.3.4:8080"] rfl

end P2p

